import Mathlib

/-!
# golang-sso-grpc: the Auth service and its gRPC transport adapter

A shallow embedding of

* `internal/services/auth/auth.go`  (package `auth`: `New`, `Auth.Login`,
  `Auth.RegisterNewUser`, `Auth.IsAdmin`), namespace `Sso.auth`;
* `internal/grpc/auth/server.go`    (package `auth`, imported elsewhere as
  `authgrpc`: `serverAPI.Login`, `serverAPI.Register`, `serverAPI.IsAdmin` and the
  three `validate*` functions), namespace `Sso.authgrpc`;
* `internal/lib/logger/sl/sl.go`    (`sl.Error`), namespace `Sso.sl`.

Conventions of the embedding.

* A Go `error` is a value of `GoError`; the `nil` error is `none : Option GoError`.
* A Go result pair `(v, err)` returned by the service is kept as a pair: the value
  field holds what the code really returns next to a non-nil error (`""`, `0`, `false`).
* The storage behind the three interfaces is an explicit state `σ`; every interface
  method maps a state to a result and a successor state.  The `ctx` argument is only
  handed through to the storage methods and is part of those functions here.
* An interface method with Go result `(v, err)` answers an `Except`: the code never
  reads `v` next to a non-nil `err`.  Ids (`int32`, `int64`) are integers; no arithmetic
  is done on them.
* The wall clock read by `jwt.NewToken` and the entropy read by
  `bcrypt.GenerateFromPassword` are explicit arguments (`now`, `rnd`).
* Calls of `a.log.Info/Warn/Error` are collected, in order, in a list of records.
* Errors are leaves (`errors.New` and the like) and `%w` wrappers around one error;
  error types with an `Is` method of their own and joined errors are not covered.
-/

namespace Sso

/-! ## Errors (`errors`, `fmt.Errorf` with `%w`) -/

/-- Go error values as they occur in the two packages: `new id msg` is a value made by
`errors.New(msg)` (or any other leaf error of a library), `id` standing for the identity
of the allocation; `wrap op inner` is `fmt.Errorf("%s: %w", op, inner)`. -/
inductive GoError where
  | new (id : Nat) (msg : String)
  | wrap (op : String) (inner : GoError)
  deriving DecidableEq

/-- The method `Error()`: the text of an error. -/
def GoError.Error : GoError → String
  | .new _ msg => msg
  | .wrap op inner => op ++ ": " ++ inner.Error

/-- The function `errors.Is(err, target)`: walks the `Unwrap` chain of `err` and compares
every link with `target`. -/
def errorsIs : GoError → GoError → Bool
  | .new id msg, target => decide (GoError.new id msg = target)
  | .wrap op inner, target => decide (GoError.wrap op inner = target) || errorsIs inner target

/-! ## Collaborators outside `src/` -/

namespace storage

/-- Modelled from the spec: the sentinel of package `internal/storage` for the
"not found" condition of find-user-by-email and get-admin-flag-by-id (spec 4.4); the
package is not part of the sources at hand. -/
def ErrUserNotFound : GoError := .new 11 "user not found"

/-- Modelled from the spec: the sentinel of package `internal/storage` for the
"not found" condition of find-app-by-id (spec 4.4). -/
def ErrAppNotFound : GoError := .new 12 "app not found"

/-- Modelled from the spec: the sentinel of package `internal/storage` for the
"user exists" condition of create-user-if-email-unique (spec 4.4). -/
def ErrUserExists : GoError := .new 13 "user already exists"

end storage

namespace models

/-- Modelled from the spec: the `User` of package `internal/domain/models` (spec 3):
identifier, email, password hash (bytes) and admin flag. -/
structure User where
  ID : Int
  Email : String
  PassHash : List Nat
  IsAdmin : Bool
  deriving DecidableEq

/-- Modelled from the spec: the `App` of package `internal/domain/models` (spec 3):
identifier, name and signing secret. -/
structure App where
  ID : Int
  Name : String
  Secret : String
  deriving DecidableEq

end models

/-- The conversion `[]byte(s)`: the UTF-8 bytes of a string. -/
def bytesOf (s : String) : List Nat :=
  (s.data.flatMap String.utf8EncodeChar).map UInt8.toNat

/-- The library functions the service calls and that live outside the repository's
`src/`: `bcrypt.CompareHashAndPassword`, `bcrypt.GenerateFromPassword` (with the entropy
it reads as first argument) and `jwt.NewToken` (with the clock value it reads as first
argument). `CompareHashAndPassword` answers `none` for the Go `nil` error. -/
structure Libs where
  CompareHashAndPassword : List Nat → List Nat → Option GoError
  GenerateFromPassword : List Nat → List Nat → Int → Except GoError (List Nat)
  NewToken : Int → models.App → models.User → Int → Except GoError String

namespace bcrypt

/-- The constant `bcrypt.DefaultCost`. -/
def DefaultCost : Int := 10

end bcrypt

/-! ## Logging (`log/slog`, `sl`) -/

/-- Levels of the three logger methods the service uses. -/
inductive Level where
  | Info | Warn | Error
  deriving DecidableEq

/-- One call of a logging method: level, message and attributes. -/
structure LogRecord where
  level : Level
  msg : String
  attrs : List (String × String)
  deriving DecidableEq

/-- A `*slog.Logger`, reduced to the attributes attached to it. -/
structure Logger where
  attrs : List (String × String)
  deriving DecidableEq

/-- The method `With`: a NEW logger carrying more attributes; the receiver is unchanged. -/
def Logger.With (l : Logger) (attrs : List (String × String)) : Logger :=
  ⟨l.attrs ++ attrs⟩

/-- The record produced by `l.Info(msg, attrs...)`. -/
def Logger.Info (l : Logger) (msg : String) (attrs : List (String × String)) : LogRecord :=
  ⟨.Info, msg, l.attrs ++ attrs⟩

/-- The record produced by `l.Warn(msg, attrs...)`. -/
def Logger.Warn (l : Logger) (msg : String) (attrs : List (String × String)) : LogRecord :=
  ⟨.Warn, msg, l.attrs ++ attrs⟩

/-- The record produced by `l.Error(msg, attrs...)`. -/
def Logger.Error (l : Logger) (msg : String) (attrs : List (String × String)) : LogRecord :=
  ⟨.Error, msg, l.attrs ++ attrs⟩

namespace sl

/-- The function `sl.Error`: the attribute `error = err.Error()`. -/
def Error (err : GoError) : String × String :=
  ("error", err.Error)

end sl

/-! ## The Auth service (`internal/services/auth/auth.go`) -/

namespace auth

/-- The sentinel `ErrInvalidCredentials`. -/
def ErrInvalidCredentials : GoError := .new 1 "invalid credentials"

/-- The sentinel `ErrInvalidAppID`. -/
def ErrInvalidAppID : GoError := .new 2 "invalid app id"

/-- The sentinel `ErrUserAlreadyExists`. -/
def ErrUserAlreadyExists : GoError := .new 3 "user already exists"

/-- The interface `UserSaver`. -/
structure UserSaver (σ : Type) where
  SaveUser : σ → String → List Nat → Except GoError Int × σ

/-- The interface `UserProvider`. -/
structure UserProvider (σ : Type) where
  User : σ → String → Except GoError models.User × σ
  IsAdmin : σ → Int → Except GoError Bool × σ

/-- The interface `AppProvider`. -/
structure AppProvider (σ : Type) where
  App : σ → Int → Except GoError models.App × σ

/-- The struct `Auth`. -/
structure Auth (σ : Type) where
  log : Logger
  userSaver : UserSaver σ
  userProvider : UserProvider σ
  appProvider : AppProvider σ
  tokenTTL : Int

/-- The constructor `New`. -/
def New {σ : Type} (log : Logger) (userSaver : UserSaver σ) (userProvider : UserProvider σ)
    (appProvider : AppProvider σ) (tokenTTL : Int) : Auth σ :=
  { log := log, userSaver := userSaver, userProvider := userProvider,
    appProvider := appProvider, tokenTTL := tokenTTL }

/-- What a method of the service leaves behind: the Go result pair `(val, err)`, the
storage state after the call and the log records written, in order. -/
structure Outcome (σ α : Type) where
  val : α
  err : Option GoError
  st : σ
  logs : List LogRecord

/-- The method `Auth.Login`. -/
def Auth.Login {σ : Type} (L : Libs) (a : Auth σ) (now : Int) (s : σ)
    (email password : String) (appID : Int) : Outcome σ String :=
  let op := "auth.Login"
  let _unused := a.log.With [("op", op), ("email", email)]
  let l0 := [a.log.Info "attempt to log in" []]
  let r1 := a.userProvider.User s email
  match r1.1 with
  | .error err =>
    if errorsIs err storage.ErrUserNotFound then
      ⟨"", some (.wrap op ErrInvalidCredentials), r1.2,
        l0 ++ [a.log.Warn "user not found" [sl.Error err]]⟩
    else
      ⟨"", some (.wrap op err), r1.2,
        l0 ++ [a.log.Error "failed to get user" [sl.Error err]]⟩
  | .ok user =>
    match L.CompareHashAndPassword user.PassHash (bytesOf password) with
    | some _ =>
      ⟨"", some (.wrap op ErrInvalidCredentials), r1.2,
        l0 ++ [a.log.Info "invalid credentials" []]⟩
    | none =>
      let r2 := a.appProvider.App r1.2 appID
      match r2.1 with
      | .error err =>
        if errorsIs err storage.ErrAppNotFound then
          ⟨"", some (.wrap op ErrInvalidAppID), r2.2,
            l0 ++ [a.log.Warn "app not found" [sl.Error err]]⟩
        else
          ⟨"", some (.wrap op err), r2.2,
            l0 ++ [a.log.Error "failed to get app" [sl.Error err]]⟩
      | .ok app =>
        let l1 := l0 ++ [a.log.Info "user logged in successfully" []]
        match L.NewToken now app user a.tokenTTL with
        | .error err =>
          ⟨"", some (.wrap op err), r2.2,
            l1 ++ [a.log.Error "failed to generate token" [sl.Error err]]⟩
        | .ok token => ⟨token, none, r2.2, l1⟩

/-- The method `Auth.RegisterNewUser`. -/
def Auth.RegisterNewUser {σ : Type} (L : Libs) (a : Auth σ) (rnd : List Nat) (s : σ)
    (email password : String) : Outcome σ Int :=
  let op := "auth.RegisterNewUser"
  let _unused := a.log.With [("op", op), ("email", email)]
  let l0 := [a.log.Info "registering user" []]
  match L.GenerateFromPassword rnd (bytesOf password) bcrypt.DefaultCost with
  | .error err =>
    ⟨0, some (.wrap op err), s,
      l0 ++ [a.log.Error "failed to generate password hash" [sl.Error err]]⟩
  | .ok passHash =>
    let r := a.userSaver.SaveUser s email passHash
    match r.1 with
    | .error err =>
      if errorsIs err storage.ErrUserExists then
        ⟨0, some (.wrap op ErrUserAlreadyExists), r.2,
          l0 ++ [a.log.Warn "user already exists" [sl.Error err]]⟩
      else
        ⟨0, some (.wrap op err), r.2,
          l0 ++ [a.log.Error "failed to save user" [sl.Error err]]⟩
    | .ok id => ⟨id, none, r.2, l0 ++ [a.log.Info "user was registered" []]⟩

/-- The method `Auth.IsAdmin`.  In both error branches the source calls `a.log.With`,
which writes no record. -/
def Auth.IsAdmin {σ : Type} (a : Auth σ) (s : σ) (userID : Int) : Outcome σ Bool :=
  let op := "auth.IsAdmin"
  let _unused := a.log.With [("op", op), ("user_id", toString userID)]
  let l0 := [a.log.Info "checking if user is admin" []]
  let r := a.userProvider.IsAdmin s userID
  match r.1 with
  | .error err =>
    if errorsIs err storage.ErrUserNotFound then
      let _unused := a.log.With [("user not found", (sl.Error err).2)]
      ⟨false, some (.wrap op ErrInvalidCredentials), r.2, l0⟩
    else
      let _unused := a.log.With [("failed to get user", (sl.Error err).2)]
      ⟨false, some (.wrap op err), r.2, l0⟩
  | .ok isAdmin =>
    ⟨isAdmin, none, r.2,
      l0 ++ [a.log.Info "checked if user is admin" [("is_admin", toString isAdmin)]]⟩

/-- A user saver enforces unique emails: once `SaveUser` has created a user for an email,
the next `SaveUser` for that email, whatever the hash, reports an error matching
`storage.ErrUserExists` (spec 4.4, create-user-if-email-unique). -/
def EnforcesUniqueEmail {σ : Type} (us : UserSaver σ) : Prop :=
  ∀ (s : σ) (email : String) (hash : List Nat) (id : Int),
    (us.SaveUser s email hash).1 = .ok id →
    ∀ hash2 : List Nat, ∃ e,
      (us.SaveUser (us.SaveUser s email hash).2 email hash2).1 = .error e ∧
      errorsIs e storage.ErrUserExists = true

end auth

/-! ## The transport adapter (`internal/grpc/auth/server.go`) -/

namespace codes

/-- The gRPC status codes (`google.golang.org/grpc/codes`) the handlers use. -/
inductive Code where
  | OK | InvalidArgument | NotFound | AlreadyExists | Internal
  deriving DecidableEq

end codes

namespace status

/-- The error built by `status.Error(code, msg)`. -/
structure Status where
  code : codes.Code
  msg : String
  deriving DecidableEq

/-- The function `status.Error`. -/
def Error (c : codes.Code) (msg : String) : Status :=
  ⟨c, msg⟩

end status

namespace ssov1

/-- The message `LoginRequest`. -/
structure LoginRequest where
  Email : String
  Password : String
  AppId : Int
  deriving DecidableEq

/-- The message `RegisterRequest`. -/
structure RegisterRequest where
  Email : String
  Password : String
  deriving DecidableEq

/-- The message `IsAdminRequest`. -/
structure IsAdminRequest where
  UserId : Int
  deriving DecidableEq

/-- The message `LoginResponse`. -/
structure LoginResponse where
  Token : String
  deriving DecidableEq

/-- The message `RegisterResponse`. -/
structure RegisterResponse where
  UserId : Int
  deriving DecidableEq

/-- The message `IsAdminResponse`. -/
structure IsAdminResponse where
  IsAdmin : Bool
  deriving DecidableEq

/-- The getter `(*LoginRequest).GetEmail`: the zero value on a nil request. -/
def LoginRequest.GetEmail : Option LoginRequest → String
  | none => ""
  | some r => r.Email

/-- The getter `(*LoginRequest).GetPassword`. -/
def LoginRequest.GetPassword : Option LoginRequest → String
  | none => ""
  | some r => r.Password

/-- The getter `(*LoginRequest).GetAppId`. -/
def LoginRequest.GetAppId : Option LoginRequest → Int
  | none => 0
  | some r => r.AppId

/-- The getter `(*RegisterRequest).GetEmail`. -/
def RegisterRequest.GetEmail : Option RegisterRequest → String
  | none => ""
  | some r => r.Email

/-- The getter `(*RegisterRequest).GetPassword`. -/
def RegisterRequest.GetPassword : Option RegisterRequest → String
  | none => ""
  | some r => r.Password

/-- The getter `(*IsAdminRequest).GetUserId`. -/
def IsAdminRequest.GetUserId : Option IsAdminRequest → Int
  | none => 0
  | some r => r.UserId

end ssov1

namespace authgrpc

open ssov1

/-- The constant `emptyValue`. -/
def emptyValue : Int := 0

/-- The interface `Auth` of the transport package: the core as the handlers see it, over
a state `τ` of everything a call of the core may touch. -/
structure Auth (τ : Type) where
  Login : τ → String → String → Int → (String × Option GoError) × τ
  RegisterNewUser : τ → String → String → (Int × Option GoError) × τ
  IsAdmin : τ → Int → (Bool × Option GoError) × τ

/-- The struct `serverAPI`. -/
structure serverAPI (τ : Type) where
  auth : Auth τ

/-- The function `validateLogin`; `none` is the nil error. -/
def validateLogin (req : Option LoginRequest) : Option status.Status :=
  if LoginRequest.GetEmail req = "" then
    some (status.Error .InvalidArgument "email is required")
  else if LoginRequest.GetPassword req = "" then
    some (status.Error .InvalidArgument "password is required")
  else if LoginRequest.GetAppId req = emptyValue then
    some (status.Error .InvalidArgument "app_id is required")
  else none

/-- The function `validateRegister`. -/
def validateRegister (req : Option RegisterRequest) : Option status.Status :=
  if RegisterRequest.GetEmail req = "" then
    some (status.Error .InvalidArgument "email is required")
  else if RegisterRequest.GetPassword req = "" then
    some (status.Error .InvalidArgument "password is required")
  else none

/-- The function `validateIsAdmin`. -/
def validateIsAdmin (req : Option IsAdminRequest) : Option status.Status :=
  if IsAdminRequest.GetUserId req = emptyValue then
    some (status.Error .InvalidArgument "user_id is required")
  else none

/-- The handler `serverAPI.Login`: the response or the status error, and the state the
call leaves. -/
def serverAPI.Login {τ : Type} (s : serverAPI τ) (t : τ) (req : Option LoginRequest) :
    Except status.Status LoginResponse × τ :=
  match validateLogin req with
  | some err => (.error err, t)
  | none =>
    let r := s.auth.Login t (LoginRequest.GetEmail req) (LoginRequest.GetPassword req)
      (LoginRequest.GetAppId req)
    match r.1.2 with
    | some err =>
      if errorsIs err auth.ErrInvalidCredentials then
        (.error (status.Error .InvalidArgument "invalid email or password"), r.2)
      else if errorsIs err auth.ErrInvalidAppID then
        (.error (status.Error .InvalidArgument "invalid app_id"), r.2)
      else
        (.error (status.Error .Internal "failed to log in"), r.2)
    | none => (.ok { Token := r.1.1 }, r.2)

/-- The handler `serverAPI.Register`. -/
def serverAPI.Register {τ : Type} (s : serverAPI τ) (t : τ) (req : Option RegisterRequest) :
    Except status.Status RegisterResponse × τ :=
  match validateRegister req with
  | some err => (.error err, t)
  | none =>
    let r := s.auth.RegisterNewUser t (RegisterRequest.GetEmail req)
      (RegisterRequest.GetPassword req)
    match r.1.2 with
    | some err =>
      if errorsIs err auth.ErrUserAlreadyExists then
        (.error (status.Error .AlreadyExists "user already exists"), r.2)
      else
        (.error (status.Error .Internal "failed to register new user"), r.2)
    | none => (.ok { UserId := r.1.1 }, r.2)

/-- The handler `serverAPI.IsAdmin`. -/
def serverAPI.IsAdmin {τ : Type} (s : serverAPI τ) (t : τ) (req : Option IsAdminRequest) :
    Except status.Status IsAdminResponse × τ :=
  match validateIsAdmin req with
  | some err => (.error err, t)
  | none =>
    let r := s.auth.IsAdmin t (IsAdminRequest.GetUserId req)
    match r.1.2 with
    | some err =>
      if errorsIs err storage.ErrUserNotFound then
        (.error (status.Error .NotFound "user not found"), r.2)
      else
        (.error (status.Error .Internal "failed to check admin status"), r.2)
    | none => (.ok { IsAdmin := r.1.1 }, r.2)

end authgrpc

/-! ## Wiring (`internal/app/app.go`, `internal/grpc/auth/server.go: Register`) -/

/-- The Auth service seen through the transport interface, as `app.New` hands it to
`grpcapp.New`: one call of a method, with the clock value and entropy that call reads;
the state of the core is the storage state together with the log written so far. -/
def coreOf {σ : Type} (L : Libs) (a : auth.Auth σ) (now : Int) (rnd : List Nat) :
    authgrpc.Auth (σ × List LogRecord) where
  Login := fun t email password appID =>
    let o := a.Login L now t.1 email password appID
    ((o.val, o.err), (o.st, t.2 ++ o.logs))
  RegisterNewUser := fun t email password =>
    let o := a.RegisterNewUser L rnd t.1 email password
    ((o.val, o.err), (o.st, t.2 ++ o.logs))
  IsAdmin := fun t userID =>
    let o := a.IsAdmin t.1 userID
    ((o.val, o.err), (o.st, t.2 ++ o.logs))

/-! ## A small in-memory instance, used to run the definitions on concrete inputs -/

namespace Example

/-- An in-memory table of users and apps. -/
structure Mem where
  users : List models.User
  apps : List models.App
  deriving DecidableEq

/-- Create-user-if-email-unique over `Mem`: ids are assigned in order of creation. -/
def memSaver : auth.UserSaver Mem where
  SaveUser := fun s email passHash =>
    if s.users.any (fun u => u.Email = email) then
      (.error (.wrap "storage.mem.SaveUser" storage.ErrUserExists), s)
    else
      (.ok (s.users.length + 1),
        { s with users := s.users ++ [⟨s.users.length + 1, email, passHash, false⟩] })

/-- Find-user-by-email and get-admin-flag-by-id over `Mem`. -/
def memProvider : auth.UserProvider Mem where
  User := fun s email =>
    match s.users.find? (fun u => u.Email = email) with
    | some u => (.ok u, s)
    | none => (.error (.wrap "storage.mem.User" storage.ErrUserNotFound), s)
  IsAdmin := fun s userID =>
    match s.users.find? (fun u => u.ID = userID) with
    | some u => (.ok u.IsAdmin, s)
    | none => (.error (.wrap "storage.mem.IsAdmin" storage.ErrUserNotFound), s)

/-- Find-app-by-id over `Mem`. -/
def memApps : auth.AppProvider Mem where
  App := fun s appID =>
    match s.apps.find? (fun p => p.ID = appID) with
    | some p => (.ok p, s)
    | none => (.error (.wrap "storage.mem.App" storage.ErrAppNotFound), s)

/-- A user provider whose every call fails with the given error. -/
def failingProvider (e : GoError) : auth.UserProvider Mem where
  User := fun s _ => (.error e, s)
  IsAdmin := fun s _ => (.error e, s)

/-- A user saver whose every call fails with the given error. -/
def failingSaver (e : GoError) : auth.UserSaver Mem where
  SaveUser := fun s _ _ => (.error e, s)

/-- An app provider whose every call fails with the given error. -/
def failingApps (e : GoError) : auth.AppProvider Mem where
  App := fun s _ => (.error e, s)

/-- Stand-ins for the library functions: the "hash" of a password is the list `[7]`
for every password of even byte length and `[8]` otherwise, compared literally; a token
is the app secret followed by the email. -/
def libs : Libs where
  CompareHashAndPassword := fun hash pw =>
    if hash = [7 + pw.length % 2] then none else some (.new 21 "hashedPassword is not the hash of the given password")
  GenerateFromPassword := fun _ pw _ => .ok [7 + pw.length % 2]
  NewToken := fun _ app user _ => .ok (app.Secret ++ "." ++ user.Email)

/-- The library stand-ins with a token issuer that always fails. -/
def libsNoToken : Libs :=
  { libs with NewToken := fun _ _ _ _ => .error (.new 22 "key is of invalid type") }

/-- The logger of the examples: no attributes attached. -/
def logger : Logger := ⟨[]⟩

/-- The service over the in-memory storage, with a TTL of 3600. -/
def svc : auth.Auth Mem := auth.New logger memSaver memProvider memApps 3600

/-- One registered user (password of even length) and one app. -/
def world : Mem :=
  { users := [⟨1, "a@x", [7], false⟩], apps := [⟨5, "shop", "k"⟩] }

/-- A core that only counts how often it is called: every method succeeds and adds one
to the state. -/
def countingCore : authgrpc.Auth Nat where
  Login := fun n _ _ _ => (("tok", none), n + 1)
  RegisterNewUser := fun n _ _ => ((7, none), n + 1)
  IsAdmin := fun n _ => ((true, none), n + 1)

/-- Two storage failures outside the recognised conditions. -/
def diskFull : GoError := .new 101 "disk I/O error"

/-- A second storage failure, different in identity and text. -/
def locked : GoError := .new 102 "database is locked"

end Example

/-! ## Facts about errors -/

/-- Looking for a leaf error in `fmt.Errorf("%s: %w", op, e)` is looking for it in `e`. -/
theorem errorsIs_wrap_new (op : String) (e : GoError) (id : Nat) (msg : String) :
    errorsIs (.wrap op e) (.new id msg) = errorsIs e (.new id msg) := by
  simp [errorsIs]

/-- Every error is itself. -/
theorem errorsIs_self (e : GoError) : errorsIs e e = true := by
  cases e <;> simp [errorsIs]

/-- A wrapped error reaches the error it wraps. -/
theorem errorsIs_wrap_inner (op : String) (e : GoError) : errorsIs (.wrap op e) e = true := by
  simp [errorsIs, errorsIs_self]

/-- The text of a wrapped error contains a colon. -/
theorem colon_mem_wrap_text (op : String) (e : GoError) :
    ':' ∈ (GoError.wrap op e).Error.data := by
  simp [GoError.Error]

/-! ## Login, path by path -/

namespace auth

/-- Path of `Auth.Login`: the user lookup reports "user not found". -/
theorem login_user_not_found {σ : Type} (L : Libs) (a : Auth σ) (now : Int) (s : σ)
    (email password : String) (appID : Int) (e : GoError)
    (hu : (a.userProvider.User s email).1 = .error e)
    (hnf : errorsIs e storage.ErrUserNotFound = true) :
    a.Login L now s email password appID =
      ⟨"", some (.wrap "auth.Login" ErrInvalidCredentials), (a.userProvider.User s email).2,
        [a.log.Info "attempt to log in" [], a.log.Warn "user not found" [sl.Error e]]⟩ := by
  simp [Auth.Login, hu, hnf]

/-- Path of `Auth.Login`: the user lookup fails otherwise. -/
theorem login_user_failure {σ : Type} (L : Libs) (a : Auth σ) (now : Int) (s : σ)
    (email password : String) (appID : Int) (e : GoError)
    (hu : (a.userProvider.User s email).1 = .error e)
    (hnf : errorsIs e storage.ErrUserNotFound = false) :
    a.Login L now s email password appID =
      ⟨"", some (.wrap "auth.Login" e), (a.userProvider.User s email).2,
        [a.log.Info "attempt to log in" [], a.log.Error "failed to get user" [sl.Error e]]⟩ := by
  simp [Auth.Login, hu, hnf]

/-- Path of `Auth.Login`: the user is found and the password does not match. -/
theorem login_wrong_password {σ : Type} (L : Libs) (a : Auth σ) (now : Int) (s : σ)
    (email password : String) (appID : Int) (u : models.User)
    (hu : (a.userProvider.User s email).1 = .ok u)
    (hc : L.CompareHashAndPassword u.PassHash (bytesOf password) ≠ none) :
    a.Login L now s email password appID =
      ⟨"", some (.wrap "auth.Login" ErrInvalidCredentials), (a.userProvider.User s email).2,
        [a.log.Info "attempt to log in" [], a.log.Info "invalid credentials" []]⟩ := by
  cases hc2 : L.CompareHashAndPassword u.PassHash (bytesOf password) with
  | none => exact absurd hc2 hc
  | some e => simp [Auth.Login, hu, hc2]

/-- Path of `Auth.Login`: credentials are fine and the app lookup reports "app not found". -/
theorem login_app_not_found {σ : Type} (L : Libs) (a : Auth σ) (now : Int) (s : σ)
    (email password : String) (appID : Int) (u : models.User) (e : GoError)
    (hu : (a.userProvider.User s email).1 = .ok u)
    (hc : L.CompareHashAndPassword u.PassHash (bytesOf password) = none)
    (hp : (a.appProvider.App (a.userProvider.User s email).2 appID).1 = .error e)
    (hnf : errorsIs e storage.ErrAppNotFound = true) :
    a.Login L now s email password appID =
      ⟨"", some (.wrap "auth.Login" ErrInvalidAppID),
        (a.appProvider.App (a.userProvider.User s email).2 appID).2,
        [a.log.Info "attempt to log in" [], a.log.Warn "app not found" [sl.Error e]]⟩ := by
  simp [Auth.Login, hu, hc, hp, hnf]

/-- Path of `Auth.Login`: credentials are fine and the app lookup fails otherwise. -/
theorem login_app_failure {σ : Type} (L : Libs) (a : Auth σ) (now : Int) (s : σ)
    (email password : String) (appID : Int) (u : models.User) (e : GoError)
    (hu : (a.userProvider.User s email).1 = .ok u)
    (hc : L.CompareHashAndPassword u.PassHash (bytesOf password) = none)
    (hp : (a.appProvider.App (a.userProvider.User s email).2 appID).1 = .error e)
    (hnf : errorsIs e storage.ErrAppNotFound = false) :
    a.Login L now s email password appID =
      ⟨"", some (.wrap "auth.Login" e),
        (a.appProvider.App (a.userProvider.User s email).2 appID).2,
        [a.log.Info "attempt to log in" [], a.log.Error "failed to get app" [sl.Error e]]⟩ := by
  simp [Auth.Login, hu, hc, hp, hnf]

/-- Path of `Auth.Login`: all lookups succeed and the token issuer fails. -/
theorem login_token_failure {σ : Type} (L : Libs) (a : Auth σ) (now : Int) (s : σ)
    (email password : String) (appID : Int) (u : models.User) (app : models.App) (e : GoError)
    (hu : (a.userProvider.User s email).1 = .ok u)
    (hc : L.CompareHashAndPassword u.PassHash (bytesOf password) = none)
    (hp : (a.appProvider.App (a.userProvider.User s email).2 appID).1 = .ok app)
    (ht : L.NewToken now app u a.tokenTTL = .error e) :
    a.Login L now s email password appID =
      ⟨"", some (.wrap "auth.Login" e),
        (a.appProvider.App (a.userProvider.User s email).2 appID).2,
        [a.log.Info "attempt to log in" [], a.log.Info "user logged in successfully" [],
          a.log.Error "failed to generate token" [sl.Error e]]⟩ := by
  simp [Auth.Login, hu, hc, hp, ht]

/-- Path of `Auth.Login`: all lookups succeed and the token issuer returns a token. -/
theorem login_success {σ : Type} (L : Libs) (a : Auth σ) (now : Int) (s : σ)
    (email password : String) (appID : Int) (u : models.User) (app : models.App) (tok : String)
    (hu : (a.userProvider.User s email).1 = .ok u)
    (hc : L.CompareHashAndPassword u.PassHash (bytesOf password) = none)
    (hp : (a.appProvider.App (a.userProvider.User s email).2 appID).1 = .ok app)
    (ht : L.NewToken now app u a.tokenTTL = .ok tok) :
    a.Login L now s email password appID =
      ⟨tok, none, (a.appProvider.App (a.userProvider.User s email).2 appID).2,
        [a.log.Info "attempt to log in" [], a.log.Info "user logged in successfully" []]⟩ := by
  simp [Auth.Login, hu, hc, hp, ht]

/-! ## Claims about Login -/

/-- C1. `Auth.Login` returns a nil error only if the user lookup by email succeeded, the
password matched that user's stored hash and the app lookup by appID succeeded; and
whenever one of the three fails, Login returns the empty string and a non-nil error. -/
theorem login_token_only_after_checks {σ : Type} (L : Libs) (a : Auth σ) (now : Int) (s : σ)
    (email password : String) (appID : Int) :
    ((a.Login L now s email password appID).err = none →
      ∃ user app, (a.userProvider.User s email).1 = .ok user ∧
        L.CompareHashAndPassword user.PassHash (bytesOf password) = none ∧
        (a.appProvider.App (a.userProvider.User s email).2 appID).1 = .ok app) ∧
    ((¬ ∃ user app, (a.userProvider.User s email).1 = .ok user ∧
        L.CompareHashAndPassword user.PassHash (bytesOf password) = none ∧
        (a.appProvider.App (a.userProvider.User s email).2 appID).1 = .ok app) →
      (a.Login L now s email password appID).val = "" ∧
        (a.Login L now s email password appID).err ≠ none) := by
  cases hu : (a.userProvider.User s email).1 with
  | error e =>
    cases hnf : errorsIs e storage.ErrUserNotFound with
    | true => simp [login_user_not_found L a now s email password appID e hu hnf]
    | false => simp [login_user_failure L a now s email password appID e hu hnf]
  | ok user =>
    cases hc : L.CompareHashAndPassword user.PassHash (bytesOf password) with
    | some e =>
      have hc2 : L.CompareHashAndPassword user.PassHash (bytesOf password) ≠ none := by
        simp [hc]
      simp [login_wrong_password L a now s email password appID user hu hc2, hc]
    | none =>
      cases hp : (a.appProvider.App (a.userProvider.User s email).2 appID).1 with
      | error e =>
        cases hnf : errorsIs e storage.ErrAppNotFound with
        | true => simp [login_app_not_found L a now s email password appID user e hu hc hp hnf]
        | false => simp [login_app_failure L a now s email password appID user e hu hc hp hnf]
      | ok app => simp [hc]

/-- Witness of C1 on the in-memory instance: a login that succeeds, and the three checks
it passed. -/
theorem login_token_only_after_checks_witness :
    (Example.svc.Login Example.libs 0 Example.world "a@x" "pw" 5).err = none ∧
    ∃ user app, (Example.svc.userProvider.User Example.world "a@x").1 = .ok user ∧
      Example.libs.CompareHashAndPassword user.PassHash (bytesOf "pw") = none ∧
      (Example.svc.appProvider.App (Example.svc.userProvider.User Example.world "a@x").2 5).1
        = .ok app :=
  ⟨by decide,
    (login_token_only_after_checks Example.libs Example.svc 0 Example.world "a@x" "pw" 5).1
      (by decide)⟩

/-- C2. A login with an unknown email (the storage reports an error matching
`storage.ErrUserNotFound`) and a login with a known email whose stored hash does not match
the password return the same pair: the empty token and one and the same error, which
matches `ErrInvalidCredentials`, does not match `storage.ErrUserNotFound`, and has the
text "auth.Login: invalid credentials". -/
theorem login_unknown_email_same_as_wrong_password {σ : Type} (L : Libs) (a : Auth σ)
    (now now2 : Int) (s s2 : σ) (email email2 password password2 : String)
    (appID appID2 : Int) (e : GoError) (u : models.User)
    (hunknown : (a.userProvider.User s email).1 = .error e)
    (hnf : errorsIs e storage.ErrUserNotFound = true)
    (hknown : (a.userProvider.User s2 email2).1 = .ok u)
    (hmismatch : L.CompareHashAndPassword u.PassHash (bytesOf password2) ≠ none) :
    (a.Login L now s email password appID).val = "" ∧
    (a.Login L now2 s2 email2 password2 appID2).val = "" ∧
    (a.Login L now s email password appID).err =
      (a.Login L now2 s2 email2 password2 appID2).err ∧
    ∃ err, (a.Login L now s email password appID).err = some err ∧
      errorsIs err ErrInvalidCredentials = true ∧
      errorsIs err storage.ErrUserNotFound = false ∧
      err.Error = "auth.Login: invalid credentials" := by
  rw [login_user_not_found L a now s email password appID e hunknown hnf,
    login_wrong_password L a now2 s2 email2 password2 appID2 u hknown hmismatch]
  refine ⟨rfl, rfl, rfl, _, rfl, ?_, ?_⟩ <;> decide

/-- Witness of C2 on the in-memory instance: "b@x" is unknown, "a@x" is known and "pww"
is not its password. -/
theorem login_unknown_email_same_as_wrong_password_witness :
    (Example.svc.Login Example.libs 0 Example.world "b@x" "pw" 5).val = "" ∧
    (Example.svc.Login Example.libs 1 Example.world "a@x" "pww" 6).val = "" ∧
    (Example.svc.Login Example.libs 0 Example.world "b@x" "pw" 5).err =
      (Example.svc.Login Example.libs 1 Example.world "a@x" "pww" 6).err ∧
    ∃ err, (Example.svc.Login Example.libs 0 Example.world "b@x" "pw" 5).err = some err ∧
      errorsIs err ErrInvalidCredentials = true ∧
      errorsIs err storage.ErrUserNotFound = false ∧
      err.Error = "auth.Login: invalid credentials" :=
  login_unknown_email_same_as_wrong_password Example.libs Example.svc 0 1 Example.world
    Example.world "b@x" "a@x" "pw" "pww" 5 6
    (.wrap "storage.mem.User" storage.ErrUserNotFound) ⟨1, "a@x", [7], false⟩
    rfl (by decide) rfl (by decide)

/-- C3. When the user exists and the password matches the stored hash but the app lookup
reports "app not found" (an error matching `storage.ErrAppNotFound`), `Auth.Login` returns
the empty token and an error that matches `ErrInvalidAppID` and does not match
`ErrInvalidCredentials`. -/
theorem login_unknown_app {σ : Type} (L : Libs) (a : Auth σ) (now : Int) (s : σ)
    (email password : String) (appID : Int) (u : models.User) (e : GoError)
    (hu : (a.userProvider.User s email).1 = .ok u)
    (hc : L.CompareHashAndPassword u.PassHash (bytesOf password) = none)
    (hp : (a.appProvider.App (a.userProvider.User s email).2 appID).1 = .error e)
    (hnf : errorsIs e storage.ErrAppNotFound = true) :
    (a.Login L now s email password appID).val = "" ∧
    ∃ err, (a.Login L now s email password appID).err = some err ∧
      errorsIs err ErrInvalidAppID = true ∧
      errorsIs err ErrInvalidCredentials = false := by
  rw [login_app_not_found L a now s email password appID u e hu hc hp hnf]
  refine ⟨rfl, _, rfl, ?_, ?_⟩ <;> decide

/-- Witness of C3 on the in-memory instance: valid credentials, app 6 does not exist. -/
theorem login_unknown_app_witness :
    (Example.svc.Login Example.libs 0 Example.world "a@x" "pw" 6).val = "" ∧
    ∃ err, (Example.svc.Login Example.libs 0 Example.world "a@x" "pw" 6).err = some err ∧
      errorsIs err ErrInvalidAppID = true ∧
      errorsIs err ErrInvalidCredentials = false :=
  login_unknown_app Example.libs Example.svc 0 Example.world "a@x" "pw" 6
    ⟨1, "a@x", [7], false⟩ (.wrap "storage.mem.App" storage.ErrAppNotFound)
    rfl (by decide) rfl (by decide)

/-- C9. When the user lookup, the password verification and the app lookup all succeed,
`Auth.Login` of a service built by `New` with TTL `ttl` returns the result of
`jwt.NewToken` on the app found, the user found and `ttl`: the issued token with a nil
error when issuing succeeds, the empty token with a non-nil error (the issuer's error,
wrapped) when it fails. -/
theorem login_returns_issuer_result {σ : Type} (L : Libs) (log : Logger)
    (us : UserSaver σ) (up : UserProvider σ) (ap : AppProvider σ) (ttl : Int)
    (now : Int) (s : σ) (email password : String) (appID : Int)
    (u : models.User) (app : models.App)
    (hu : (up.User s email).1 = .ok u)
    (hc : L.CompareHashAndPassword u.PassHash (bytesOf password) = none)
    (hp : (ap.App (up.User s email).2 appID).1 = .ok app) :
    (∀ tok, L.NewToken now app u ttl = .ok tok →
      ((New log us up ap ttl).Login L now s email password appID).val = tok ∧
      ((New log us up ap ttl).Login L now s email password appID).err = none) ∧
    (∀ e, L.NewToken now app u ttl = .error e →
      ((New log us up ap ttl).Login L now s email password appID).val = "" ∧
      ((New log us up ap ttl).Login L now s email password appID).err =
        some (.wrap "auth.Login" e)) := by
  constructor
  · intro tok ht
    rw [login_success L (New log us up ap ttl) now s email password appID u app tok hu hc hp ht]
    exact ⟨rfl, rfl⟩
  · intro e ht
    rw [login_token_failure L (New log us up ap ttl) now s email password appID u app e
      hu hc hp ht]
    exact ⟨rfl, rfl⟩

/-- Witness of C9 on the in-memory instance, with an issuer that succeeds. -/
theorem login_returns_issuer_result_witness :
    ((New Example.logger Example.memSaver Example.memProvider Example.memApps 3600).Login
      Example.libs 0 Example.world "a@x" "pw" 5).val = "k.a@x" ∧
    ((New Example.logger Example.memSaver Example.memProvider Example.memApps 3600).Login
      Example.libs 0 Example.world "a@x" "pw" 5).err = none :=
  (login_returns_issuer_result Example.libs Example.logger Example.memSaver
    Example.memProvider Example.memApps 3600 0 Example.world "a@x" "pw" 5
    ⟨1, "a@x", [7], false⟩ ⟨5, "shop", "k"⟩ rfl (by decide) rfl).1
    "k.a@x" rfl

/-- C10. Credentials are checked strictly before the app: when the user is unknown or the
password does not match, `Auth.Login` returns the empty token and the InvalidCredentials
error, and its whole outcome (result, storage state, log) is the same for every app
provider the service could have been built with, so the app provider is not consulted. -/
theorem login_credentials_before_app {σ : Type} (L : Libs) (log : Logger)
    (us : UserSaver σ) (up : UserProvider σ) (ap ap2 : AppProvider σ) (ttl : Int)
    (now : Int) (s : σ) (email password : String) (appID : Int)
    (hbad : (∃ e, (up.User s email).1 = .error e ∧ errorsIs e storage.ErrUserNotFound = true) ∨
      (∃ u, (up.User s email).1 = .ok u ∧
        L.CompareHashAndPassword u.PassHash (bytesOf password) ≠ none)) :
    (New log us up ap ttl).Login L now s email password appID =
      (New log us up ap2 ttl).Login L now s email password appID ∧
    ((New log us up ap ttl).Login L now s email password appID).val = "" ∧
    ((New log us up ap ttl).Login L now s email password appID).err =
      some (.wrap "auth.Login" ErrInvalidCredentials) ∧
    ((New log us up ap ttl).Login L now s email password appID).st = (up.User s email).2 ∧
    errorsIs (.wrap "auth.Login" ErrInvalidCredentials) ErrInvalidCredentials = true := by
  rcases hbad with ⟨e, hu, hnf⟩ | ⟨u, hu, hc⟩
  · rw [login_user_not_found L (New log us up ap ttl) now s email password appID e hu hnf,
      login_user_not_found L (New log us up ap2 ttl) now s email password appID e hu hnf]
    exact ⟨rfl, rfl, rfl, rfl, by decide⟩
  · rw [login_wrong_password L (New log us up ap ttl) now s email password appID u hu hc,
      login_wrong_password L (New log us up ap2 ttl) now s email password appID u hu hc]
    exact ⟨rfl, rfl, rfl, rfl, by decide⟩

/-- Witness of C10 on the in-memory instance: a wrong password, with the app table on one
side and an app provider that always fails on the other. -/
theorem login_credentials_before_app_witness :
    (New Example.logger Example.memSaver Example.memProvider Example.memApps 3600).Login
        Example.libs 0 Example.world "a@x" "pww" 5 =
      (New Example.logger Example.memSaver Example.memProvider
        (Example.failingApps Example.diskFull) 3600).Login
        Example.libs 0 Example.world "a@x" "pww" 5 :=
  (login_credentials_before_app Example.libs Example.logger Example.memSaver
    Example.memProvider Example.memApps (Example.failingApps Example.diskFull) 3600 0
    Example.world "a@x" "pww" 5
    (Or.inr ⟨⟨1, "a@x", [7], false⟩, rfl, by decide⟩)).1

/-! ## RegisterNewUser and IsAdmin, path by path -/

/-- Path of `Auth.RegisterNewUser`: hashing fails. -/
theorem register_hash_failure {σ : Type} (L : Libs) (a : Auth σ) (rnd : List Nat) (s : σ)
    (email password : String) (e : GoError)
    (hh : L.GenerateFromPassword rnd (bytesOf password) bcrypt.DefaultCost = .error e) :
    a.RegisterNewUser L rnd s email password =
      ⟨0, some (.wrap "auth.RegisterNewUser" e), s,
        [a.log.Info "registering user" [],
          a.log.Error "failed to generate password hash" [sl.Error e]]⟩ := by
  simp [Auth.RegisterNewUser, hh]

/-- Path of `Auth.RegisterNewUser`: the storage reports "user exists". -/
theorem register_user_exists {σ : Type} (L : Libs) (a : Auth σ) (rnd : List Nat) (s : σ)
    (email password : String) (hash : List Nat) (e : GoError)
    (hh : L.GenerateFromPassword rnd (bytesOf password) bcrypt.DefaultCost = .ok hash)
    (hs : (a.userSaver.SaveUser s email hash).1 = .error e)
    (hex : errorsIs e storage.ErrUserExists = true) :
    a.RegisterNewUser L rnd s email password =
      ⟨0, some (.wrap "auth.RegisterNewUser" ErrUserAlreadyExists),
        (a.userSaver.SaveUser s email hash).2,
        [a.log.Info "registering user" [], a.log.Warn "user already exists" [sl.Error e]]⟩ := by
  simp [Auth.RegisterNewUser, hh, hs, hex]

/-- Path of `Auth.RegisterNewUser`: the storage fails otherwise. -/
theorem register_save_failure {σ : Type} (L : Libs) (a : Auth σ) (rnd : List Nat) (s : σ)
    (email password : String) (hash : List Nat) (e : GoError)
    (hh : L.GenerateFromPassword rnd (bytesOf password) bcrypt.DefaultCost = .ok hash)
    (hs : (a.userSaver.SaveUser s email hash).1 = .error e)
    (hex : errorsIs e storage.ErrUserExists = false) :
    a.RegisterNewUser L rnd s email password =
      ⟨0, some (.wrap "auth.RegisterNewUser" e), (a.userSaver.SaveUser s email hash).2,
        [a.log.Info "registering user" [], a.log.Error "failed to save user" [sl.Error e]]⟩ := by
  simp [Auth.RegisterNewUser, hh, hs, hex]

/-- Path of `Auth.RegisterNewUser`: the user is created. -/
theorem register_success {σ : Type} (L : Libs) (a : Auth σ) (rnd : List Nat) (s : σ)
    (email password : String) (hash : List Nat) (id : Int)
    (hh : L.GenerateFromPassword rnd (bytesOf password) bcrypt.DefaultCost = .ok hash)
    (hs : (a.userSaver.SaveUser s email hash).1 = .ok id) :
    a.RegisterNewUser L rnd s email password =
      ⟨id, none, (a.userSaver.SaveUser s email hash).2,
        [a.log.Info "registering user" [], a.log.Info "user was registered" []]⟩ := by
  simp [Auth.RegisterNewUser, hh, hs]

/-- Path of `Auth.IsAdmin`: the storage reports "user not found". -/
theorem isAdmin_user_not_found {σ : Type} (a : Auth σ) (s : σ) (userID : Int) (e : GoError)
    (hu : (a.userProvider.IsAdmin s userID).1 = .error e)
    (hnf : errorsIs e storage.ErrUserNotFound = true) :
    a.IsAdmin s userID =
      ⟨false, some (.wrap "auth.IsAdmin" ErrInvalidCredentials),
        (a.userProvider.IsAdmin s userID).2, [a.log.Info "checking if user is admin" []]⟩ := by
  simp [Auth.IsAdmin, hu, hnf]

/-- Path of `Auth.IsAdmin`: the storage fails otherwise. -/
theorem isAdmin_failure {σ : Type} (a : Auth σ) (s : σ) (userID : Int) (e : GoError)
    (hu : (a.userProvider.IsAdmin s userID).1 = .error e)
    (hnf : errorsIs e storage.ErrUserNotFound = false) :
    a.IsAdmin s userID =
      ⟨false, some (.wrap "auth.IsAdmin" e),
        (a.userProvider.IsAdmin s userID).2, [a.log.Info "checking if user is admin" []]⟩ := by
  simp [Auth.IsAdmin, hu, hnf]

/-- Path of `Auth.IsAdmin`: the flag is found. -/
theorem isAdmin_success {σ : Type} (a : Auth σ) (s : σ) (userID : Int) (b : Bool)
    (hu : (a.userProvider.IsAdmin s userID).1 = .ok b) :
    a.IsAdmin s userID =
      ⟨b, none, (a.userProvider.IsAdmin s userID).2,
        [a.log.Info "checking if user is admin" [],
          a.log.Info "checked if user is admin" [("is_admin", toString b)]]⟩ := by
  simp [Auth.IsAdmin, hu]

/-- The in-memory user saver enforces unique emails. -/
theorem memSaver_enforces_unique : EnforcesUniqueEmail Example.memSaver := by
  intro s email hash id h hash2
  by_cases hany : ∃ x ∈ s.users, x.Email = email
  · simp [Example.memSaver, hany] at h
  · refine ⟨.wrap "storage.mem.SaveUser" storage.ErrUserExists, ?_, by decide⟩
    have hnew : ∃ x ∈ s.users ++ [(⟨s.users.length + 1, email, hash, false⟩ : models.User)],
        x.Email = email := ⟨⟨s.users.length + 1, email, hash, false⟩, by simp, rfl⟩
    simp only [Example.memSaver, List.any_eq_true, decide_eq_true_eq, hany, if_false, hnew,
      if_true]

/-! ## Claims about RegisterNewUser -/

/-- C6. For every email and password whose hashing succeeds: if `SaveUser` reports a
unique-email collision (an error matching `storage.ErrUserExists`), `RegisterNewUser`
returns id 0 and an error matching `ErrUserAlreadyExists`; if `SaveUser` succeeds with id
`n`, it returns exactly `n` and a nil error; and over a storage that enforces unique
emails, a second `RegisterNewUser` with the same email, run on the state the first
successful one left, returns id 0 and an error matching `ErrUserAlreadyExists`. -/
theorem register_collision_and_success {σ : Type} (L : Libs) (a : Auth σ) (rnd : List Nat)
    (s : σ) (email password : String) (hash : List Nat)
    (hh : L.GenerateFromPassword rnd (bytesOf password) bcrypt.DefaultCost = .ok hash) :
    (∀ e, (a.userSaver.SaveUser s email hash).1 = .error e →
      errorsIs e storage.ErrUserExists = true →
      (a.RegisterNewUser L rnd s email password).val = 0 ∧
      ∃ err, (a.RegisterNewUser L rnd s email password).err = some err ∧
        errorsIs err ErrUserAlreadyExists = true) ∧
    (∀ n, (a.userSaver.SaveUser s email hash).1 = .ok n →
      (a.RegisterNewUser L rnd s email password).val = n ∧
      (a.RegisterNewUser L rnd s email password).err = none) ∧
    (EnforcesUniqueEmail a.userSaver →
      (a.RegisterNewUser L rnd s email password).err = none →
      ∀ (rnd2 : List Nat) (password2 : String) (hash2 : List Nat),
        L.GenerateFromPassword rnd2 (bytesOf password2) bcrypt.DefaultCost = .ok hash2 →
        (a.RegisterNewUser L rnd2 (a.RegisterNewUser L rnd s email password).st
          email password2).val = 0 ∧
        ∃ err, (a.RegisterNewUser L rnd2 (a.RegisterNewUser L rnd s email password).st
          email password2).err = some err ∧
          errorsIs err ErrUserAlreadyExists = true) := by
  refine ⟨?_, ?_, ?_⟩
  · intro e hs hex
    rw [register_user_exists L a rnd s email password hash e hh hs hex]
    exact ⟨rfl, _, rfl, by decide⟩
  · intro n hs
    rw [register_success L a rnd s email password hash n hh hs]
    exact ⟨rfl, rfl⟩
  · intro huniq hfirst rnd2 password2 hash2 hh2
    cases hs : (a.userSaver.SaveUser s email hash).1 with
    | error e =>
      cases hex : errorsIs e storage.ErrUserExists with
      | true => simp [register_user_exists L a rnd s email password hash e hh hs hex] at hfirst
      | false => simp [register_save_failure L a rnd s email password hash e hh hs hex] at hfirst
    | ok id =>
      obtain ⟨e, hs2, hex⟩ := huniq s email hash id hs hash2
      rw [register_success L a rnd s email password hash id hh hs]
      rw [register_user_exists L a rnd2 _ email password2 hash2 e hh2 hs2 hex]
      exact ⟨rfl, _, rfl, by decide⟩

/-- Witness of C6 on the in-memory instance: "b@x" is registered with id 2, and a second
registration of "b@x" with another password is refused. -/
theorem register_collision_and_success_witness :
    (Example.svc.RegisterNewUser Example.libs [] Example.world "b@x" "pw").val = 2 ∧
    (Example.svc.RegisterNewUser Example.libs [] Example.world "b@x" "pw").err = none ∧
    (Example.svc.RegisterNewUser Example.libs [1]
      (Example.svc.RegisterNewUser Example.libs [] Example.world "b@x" "pw").st
      "b@x" "other").val = 0 ∧
    ∃ err, (Example.svc.RegisterNewUser Example.libs [1]
      (Example.svc.RegisterNewUser Example.libs [] Example.world "b@x" "pw").st
      "b@x" "other").err = some err ∧ errorsIs err ErrUserAlreadyExists = true :=
  ⟨((register_collision_and_success Example.libs Example.svc [] Example.world "b@x" "pw"
      [7] rfl).2.1 2 rfl).1,
    by decide,
    (register_collision_and_success Example.libs Example.svc [] Example.world "b@x" "pw"
      [7] rfl).2.2 memSaver_enforces_unique (by decide) [1] "other" [8] rfl⟩

/-! ## Claims about the classification of storage failures -/

/-- C5, as stated, fails: two storage failures outside the recognised conditions, different
in identity and text, make `Auth.Login`, `Auth.RegisterNewUser` and `Auth.IsAdmin` return
different errors with different texts, each text carrying the text of the storage error,
and the storage error is reachable through the wrap chain of the returned error. -/
theorem storage_failure_detail_is_returned :
    errorsIs Example.diskFull storage.ErrUserNotFound = false ∧
    errorsIs Example.locked storage.ErrUserNotFound = false ∧
    errorsIs Example.diskFull storage.ErrUserExists = false ∧
    errorsIs Example.locked storage.ErrUserExists = false ∧
    ((New Example.logger Example.memSaver (Example.failingProvider Example.diskFull)
        Example.memApps 3600).Login Example.libs 0 Example.world "a@x" "pw" 5).err =
      some (.wrap "auth.Login" Example.diskFull) ∧
    ((New Example.logger Example.memSaver (Example.failingProvider Example.locked)
        Example.memApps 3600).Login Example.libs 0 Example.world "a@x" "pw" 5).err =
      some (.wrap "auth.Login" Example.locked) ∧
    ((New Example.logger Example.memSaver (Example.failingProvider Example.diskFull)
        Example.memApps 3600).Login Example.libs 0 Example.world "a@x" "pw" 5).err ≠
      ((New Example.logger Example.memSaver (Example.failingProvider Example.locked)
        Example.memApps 3600).Login Example.libs 0 Example.world "a@x" "pw" 5).err ∧
    (GoError.wrap "auth.Login" Example.diskFull).Error = "auth.Login: disk I/O error" ∧
    (GoError.wrap "auth.Login" Example.locked).Error = "auth.Login: database is locked" ∧
    errorsIs (.wrap "auth.Login" Example.diskFull) Example.diskFull = true ∧
    ((New Example.logger (Example.failingSaver Example.diskFull) Example.memProvider
        Example.memApps 3600).RegisterNewUser Example.libs [] Example.world "b@x" "pw").err =
      some (.wrap "auth.RegisterNewUser" Example.diskFull) ∧
    ((New Example.logger (Example.failingSaver Example.locked) Example.memProvider
        Example.memApps 3600).RegisterNewUser Example.libs [] Example.world "b@x" "pw").err =
      some (.wrap "auth.RegisterNewUser" Example.locked) ∧
    ((New Example.logger Example.memSaver (Example.failingProvider Example.diskFull)
        Example.memApps 3600).IsAdmin Example.world 1).err =
      some (.wrap "auth.IsAdmin" Example.diskFull) ∧
    ((New Example.logger Example.memSaver (Example.failingProvider Example.locked)
        Example.memApps 3600).IsAdmin Example.world 1).err =
      some (.wrap "auth.IsAdmin" Example.locked) := by
  decide

/-- C5, amended. A storage failure outside the recognised conditions comes back from
`Auth.Login` (user lookup or app lookup), `Auth.RegisterNewUser` and `Auth.IsAdmin` as
that very error wrapped with the operation name: the text is the operation name, a colon
and the text of the storage error, the storage error is reachable through the wrap chain,
and different storage errors give different returned errors.  A storage failure inside a
recognised condition of Login or RegisterNewUser comes back as a fixed sentinel wrapped
with the operation name, whatever the storage error was: `ErrInvalidCredentials` for
"user not found", `ErrInvalidAppID` for "app not found", `ErrUserAlreadyExists` for
"user exists". -/
theorem storage_failure_is_wrapped {σ : Type} (L : Libs) (a : Auth σ) (now : Int)
    (rnd : List Nat) (s : σ) (email password : String) (appID userID : Int) :
    (∀ e, (a.userProvider.User s email).1 = .error e →
      errorsIs e storage.ErrUserNotFound = false →
      (a.Login L now s email password appID).err = some (.wrap "auth.Login" e)) ∧
    (∀ u e, (a.userProvider.User s email).1 = .ok u →
      L.CompareHashAndPassword u.PassHash (bytesOf password) = none →
      (a.appProvider.App (a.userProvider.User s email).2 appID).1 = .error e →
      errorsIs e storage.ErrAppNotFound = false →
      (a.Login L now s email password appID).err = some (.wrap "auth.Login" e)) ∧
    (∀ hash e, L.GenerateFromPassword rnd (bytesOf password) bcrypt.DefaultCost = .ok hash →
      (a.userSaver.SaveUser s email hash).1 = .error e →
      errorsIs e storage.ErrUserExists = false →
      (a.RegisterNewUser L rnd s email password).err =
        some (.wrap "auth.RegisterNewUser" e)) ∧
    (∀ e, (a.userProvider.IsAdmin s userID).1 = .error e →
      errorsIs e storage.ErrUserNotFound = false →
      (a.IsAdmin s userID).err = some (.wrap "auth.IsAdmin" e)) ∧
    (∀ op e, (GoError.wrap op e).Error = op ++ ": " ++ e.Error ∧
      errorsIs (.wrap op e) e = true ∧
      ∀ e2, GoError.wrap op e = GoError.wrap op e2 → e = e2) ∧
    (∀ e, (a.userProvider.User s email).1 = .error e →
      errorsIs e storage.ErrUserNotFound = true →
      (a.Login L now s email password appID).err =
        some (.wrap "auth.Login" ErrInvalidCredentials)) ∧
    (∀ u e, (a.userProvider.User s email).1 = .ok u →
      L.CompareHashAndPassword u.PassHash (bytesOf password) = none →
      (a.appProvider.App (a.userProvider.User s email).2 appID).1 = .error e →
      errorsIs e storage.ErrAppNotFound = true →
      (a.Login L now s email password appID).err = some (.wrap "auth.Login" ErrInvalidAppID)) ∧
    (∀ hash e, L.GenerateFromPassword rnd (bytesOf password) bcrypt.DefaultCost = .ok hash →
      (a.userSaver.SaveUser s email hash).1 = .error e →
      errorsIs e storage.ErrUserExists = true →
      (a.RegisterNewUser L rnd s email password).err =
        some (.wrap "auth.RegisterNewUser" ErrUserAlreadyExists)) := by
  refine ⟨?_, ?_, ?_, ?_, ?_, ?_, ?_, ?_⟩
  · intro e hu hnf
    rw [login_user_failure L a now s email password appID e hu hnf]
  · intro u e hu hc hp hnf
    rw [login_app_failure L a now s email password appID u e hu hc hp hnf]
  · intro hash e hh hs hex
    rw [register_save_failure L a rnd s email password hash e hh hs hex]
  · intro e hu hnf
    rw [isAdmin_failure a s userID e hu hnf]
  · intro op e
    refine ⟨rfl, errorsIs_wrap_inner op e, ?_⟩
    intro e2 h
    injection h
  · intro e hu hnf
    rw [login_user_not_found L a now s email password appID e hu hnf]
  · intro u e hu hc hp hnf
    rw [login_app_not_found L a now s email password appID u e hu hc hp hnf]
  · intro hash e hh hs hex
    rw [register_user_exists L a rnd s email password hash e hh hs hex]

/-- Witness of C5 (amended) on the in-memory instance with a user provider that fails
with "disk I/O error". -/
theorem storage_failure_is_wrapped_witness :
    ((New Example.logger Example.memSaver (Example.failingProvider Example.diskFull)
        Example.memApps 3600).Login Example.libs 0 Example.world "a@x" "pw" 5).err =
      some (.wrap "auth.Login" Example.diskFull) :=
  (storage_failure_is_wrapped Example.libs
    (New Example.logger Example.memSaver (Example.failingProvider Example.diskFull)
      Example.memApps 3600) 0 [] Example.world "a@x" "pw" 5 1).1
    Example.diskFull rfl (by decide)

/-! ## The shape of the errors the service returns -/

/-- Every error `Auth.Login` returns is a `fmt.Errorf("%s: %w", op, ...)` value. -/
theorem login_err_is_wrapped {σ : Type} (L : Libs) (a : Auth σ) (now : Int) (s : σ)
    (email password : String) (appID : Int) (e : GoError)
    (h : (a.Login L now s email password appID).err = some e) :
    ∃ x, e = .wrap "auth.Login" x := by
  cases hu : (a.userProvider.User s email).1 with
  | error e1 =>
    cases hnf : errorsIs e1 storage.ErrUserNotFound with
    | true =>
      rw [login_user_not_found L a now s email password appID e1 hu hnf] at h
      exact ⟨_, (Option.some.inj h).symm⟩
    | false =>
      rw [login_user_failure L a now s email password appID e1 hu hnf] at h
      exact ⟨_, (Option.some.inj h).symm⟩
  | ok user =>
    cases hc : L.CompareHashAndPassword user.PassHash (bytesOf password) with
    | some e1 =>
      have hc2 : L.CompareHashAndPassword user.PassHash (bytesOf password) ≠ none := by
        simp [hc]
      rw [login_wrong_password L a now s email password appID user hu hc2] at h
      exact ⟨_, (Option.some.inj h).symm⟩
    | none =>
      cases hp : (a.appProvider.App (a.userProvider.User s email).2 appID).1 with
      | error e1 =>
        cases hnf : errorsIs e1 storage.ErrAppNotFound with
        | true =>
          rw [login_app_not_found L a now s email password appID user e1 hu hc hp hnf] at h
          exact ⟨_, (Option.some.inj h).symm⟩
        | false =>
          rw [login_app_failure L a now s email password appID user e1 hu hc hp hnf] at h
          exact ⟨_, (Option.some.inj h).symm⟩
      | ok app =>
        cases ht : L.NewToken now app user a.tokenTTL with
        | error e1 =>
          rw [login_token_failure L a now s email password appID user app e1 hu hc hp ht] at h
          exact ⟨_, (Option.some.inj h).symm⟩
        | ok tok =>
          rw [login_success L a now s email password appID user app tok hu hc hp ht] at h
          exact absurd h (by simp)

/-- Every error `Auth.RegisterNewUser` returns is a `fmt.Errorf("%s: %w", op, ...)` value. -/
theorem register_err_is_wrapped {σ : Type} (L : Libs) (a : Auth σ) (rnd : List Nat) (s : σ)
    (email password : String) (e : GoError)
    (h : (a.RegisterNewUser L rnd s email password).err = some e) :
    ∃ x, e = .wrap "auth.RegisterNewUser" x := by
  cases hh : L.GenerateFromPassword rnd (bytesOf password) bcrypt.DefaultCost with
  | error e1 =>
    rw [register_hash_failure L a rnd s email password e1 hh] at h
    exact ⟨_, (Option.some.inj h).symm⟩
  | ok hash =>
    cases hs : (a.userSaver.SaveUser s email hash).1 with
    | error e1 =>
      cases hex : errorsIs e1 storage.ErrUserExists with
      | true =>
        rw [register_user_exists L a rnd s email password hash e1 hh hs hex] at h
        exact ⟨_, (Option.some.inj h).symm⟩
      | false =>
        rw [register_save_failure L a rnd s email password hash e1 hh hs hex] at h
        exact ⟨_, (Option.some.inj h).symm⟩
    | ok id =>
      rw [register_success L a rnd s email password hash id hh hs] at h
      exact absurd h (by simp)

end auth

/-- A text with a colon in it does not occur inside a text without one. -/
theorem not_infix_of_colon (txt msg : String) (hin : ':' ∈ txt.data)
    (hout : ':' ∉ msg.data) : ¬ (txt.data <:+: msg.data) :=
  fun h => hout (h.subset hin)

/-! ## The transport adapter -/

namespace authgrpc

open ssov1

/-- The function `validateLogin` accepts exactly the requests with a non-empty email, a
non-empty password and a non-zero app id. -/
theorem validateLogin_eq_none (req : Option LoginRequest) :
    validateLogin req = none ↔
      LoginRequest.GetEmail req ≠ "" ∧ LoginRequest.GetPassword req ≠ "" ∧
        LoginRequest.GetAppId req ≠ 0 := by
  unfold validateLogin emptyValue
  split_ifs <;> simp_all

/-- The function `validateLogin` only ever answers nil or an InvalidArgument status. -/
theorem validateLogin_code (req : Option LoginRequest) (st : status.Status)
    (h : validateLogin req = some st) : st.code = .InvalidArgument := by
  unfold validateLogin at h
  split_ifs at h <;> cases h <;> rfl

/-- The function `validateRegister` accepts exactly the requests with a non-empty email
and a non-empty password. -/
theorem validateRegister_eq_none (req : Option RegisterRequest) :
    validateRegister req = none ↔
      RegisterRequest.GetEmail req ≠ "" ∧ RegisterRequest.GetPassword req ≠ "" := by
  unfold validateRegister
  split_ifs <;> simp_all

/-- The function `validateRegister` only ever answers nil or an InvalidArgument status. -/
theorem validateRegister_code (req : Option RegisterRequest) (st : status.Status)
    (h : validateRegister req = some st) : st.code = .InvalidArgument := by
  unfold validateRegister at h
  split_ifs at h <;> cases h <;> rfl

/-- The function `validateIsAdmin` accepts exactly the requests with a non-zero user id. -/
theorem validateIsAdmin_eq_none (req : Option IsAdminRequest) :
    validateIsAdmin req = none ↔ IsAdminRequest.GetUserId req ≠ 0 := by
  unfold validateIsAdmin emptyValue
  split_ifs <;> simp_all

/-- The function `validateIsAdmin` only ever answers nil or an InvalidArgument status. -/
theorem validateIsAdmin_code (req : Option IsAdminRequest) (st : status.Status)
    (h : validateIsAdmin req = some st) : st.code = .InvalidArgument := by
  unfold validateIsAdmin at h
  split_ifs at h
  cases h
  rfl

/-- The handler `serverAPI.Login` on a request that fails validation. -/
theorem login_handler_invalid {τ : Type} (srv : serverAPI τ) (t : τ)
    (req : Option LoginRequest) (st : status.Status) (h : validateLogin req = some st) :
    srv.Login t req = (.error st, t) := by
  simp [serverAPI.Login, h]

/-- The handler `serverAPI.Login` on a valid request for which the core returns an error. -/
theorem login_handler_error {τ : Type} (srv : serverAPI τ) (t : τ)
    (req : Option LoginRequest) (e : GoError) (h : validateLogin req = none)
    (he : (srv.auth.Login t (LoginRequest.GetEmail req) (LoginRequest.GetPassword req)
      (LoginRequest.GetAppId req)).1.2 = some e) :
    srv.Login t req =
      (.error (if errorsIs e auth.ErrInvalidCredentials = true then
          status.Error .InvalidArgument "invalid email or password"
        else if errorsIs e auth.ErrInvalidAppID = true then
          status.Error .InvalidArgument "invalid app_id"
        else status.Error .Internal "failed to log in"),
        (srv.auth.Login t (LoginRequest.GetEmail req) (LoginRequest.GetPassword req)
          (LoginRequest.GetAppId req)).2) := by
  simp only [serverAPI.Login, h, he]
  split_ifs <;> rfl

/-- The handler `serverAPI.Login` on a valid request for which the core returns a token. -/
theorem login_handler_ok {τ : Type} (srv : serverAPI τ) (t : τ)
    (req : Option LoginRequest) (h : validateLogin req = none)
    (he : (srv.auth.Login t (LoginRequest.GetEmail req) (LoginRequest.GetPassword req)
      (LoginRequest.GetAppId req)).1.2 = none) :
    srv.Login t req =
      (.ok ⟨(srv.auth.Login t (LoginRequest.GetEmail req) (LoginRequest.GetPassword req)
          (LoginRequest.GetAppId req)).1.1⟩,
        (srv.auth.Login t (LoginRequest.GetEmail req) (LoginRequest.GetPassword req)
          (LoginRequest.GetAppId req)).2) := by
  simp only [serverAPI.Login, h, he]

/-- The handler `serverAPI.Register` on a request that fails validation. -/
theorem register_handler_invalid {τ : Type} (srv : serverAPI τ) (t : τ)
    (req : Option RegisterRequest) (st : status.Status) (h : validateRegister req = some st) :
    srv.Register t req = (.error st, t) := by
  simp [serverAPI.Register, h]

/-- The handler `serverAPI.Register` on a valid request for which the core returns an
error. -/
theorem register_handler_error {τ : Type} (srv : serverAPI τ) (t : τ)
    (req : Option RegisterRequest) (e : GoError) (h : validateRegister req = none)
    (he : (srv.auth.RegisterNewUser t (RegisterRequest.GetEmail req)
      (RegisterRequest.GetPassword req)).1.2 = some e) :
    srv.Register t req =
      (.error (if errorsIs e auth.ErrUserAlreadyExists = true then
          status.Error .AlreadyExists "user already exists"
        else status.Error .Internal "failed to register new user"),
        (srv.auth.RegisterNewUser t (RegisterRequest.GetEmail req)
          (RegisterRequest.GetPassword req)).2) := by
  simp only [serverAPI.Register, h, he]
  split_ifs <;> rfl

/-- The handler `serverAPI.Register` on a valid request for which the core returns an id. -/
theorem register_handler_ok {τ : Type} (srv : serverAPI τ) (t : τ)
    (req : Option RegisterRequest) (h : validateRegister req = none)
    (he : (srv.auth.RegisterNewUser t (RegisterRequest.GetEmail req)
      (RegisterRequest.GetPassword req)).1.2 = none) :
    srv.Register t req =
      (.ok ⟨(srv.auth.RegisterNewUser t (RegisterRequest.GetEmail req)
          (RegisterRequest.GetPassword req)).1.1⟩,
        (srv.auth.RegisterNewUser t (RegisterRequest.GetEmail req)
          (RegisterRequest.GetPassword req)).2) := by
  simp only [serverAPI.Register, h, he]

/-- The handler `serverAPI.IsAdmin` on a request that fails validation. -/
theorem isAdmin_handler_invalid {τ : Type} (srv : serverAPI τ) (t : τ)
    (req : Option IsAdminRequest) (st : status.Status) (h : validateIsAdmin req = some st) :
    srv.IsAdmin t req = (.error st, t) := by
  simp [serverAPI.IsAdmin, h]

/-- The handler `serverAPI.IsAdmin` on a valid request for which the core returns an
error. -/
theorem isAdmin_handler_error {τ : Type} (srv : serverAPI τ) (t : τ)
    (req : Option IsAdminRequest) (e : GoError) (h : validateIsAdmin req = none)
    (he : (srv.auth.IsAdmin t (IsAdminRequest.GetUserId req)).1.2 = some e) :
    srv.IsAdmin t req =
      (.error (if errorsIs e storage.ErrUserNotFound = true then
          status.Error .NotFound "user not found"
        else status.Error .Internal "failed to check admin status"),
        (srv.auth.IsAdmin t (IsAdminRequest.GetUserId req)).2) := by
  simp only [serverAPI.IsAdmin, h, he]
  split_ifs <;> rfl

/-- The handler `serverAPI.IsAdmin` on a valid request for which the core returns the
flag. -/
theorem isAdmin_handler_ok {τ : Type} (srv : serverAPI τ) (t : τ)
    (req : Option IsAdminRequest) (h : validateIsAdmin req = none)
    (he : (srv.auth.IsAdmin t (IsAdminRequest.GetUserId req)).1.2 = none) :
    srv.IsAdmin t req =
      (.ok ⟨(srv.auth.IsAdmin t (IsAdminRequest.GetUserId req)).1.1⟩,
        (srv.auth.IsAdmin t (IsAdminRequest.GetUserId req)).2) := by
  simp only [serverAPI.IsAdmin, h, he]

/-! ## Claims about the transport adapter -/

/-- C7. Each handler calls the core exactly when the request passes shape validation.
A Login request with an empty email, an empty password or app id 0 (and only such a
request), a Register request with an empty email or an empty password, an IsAdmin request
with user id 0 gets status InvalidArgument, the same for every core, and the state of the
core is untouched.  Every other request is handed to the core with the fields of the
request: the state after the handler is the state the core leaves, a nil error of the core
becomes the response built from the core's value, a non-nil error becomes a status. -/
theorem handlers_validate_before_core {τ : Type} (t : τ) (lreq : Option LoginRequest)
    (rreq : Option RegisterRequest) (areq : Option IsAdminRequest) :
    ((LoginRequest.GetEmail lreq = "" ∨ LoginRequest.GetPassword lreq = "" ∨
        LoginRequest.GetAppId lreq = 0) →
      ∃ m, ∀ srv : serverAPI τ,
        srv.Login t lreq = (.error (status.Error .InvalidArgument m), t)) ∧
    ((LoginRequest.GetEmail lreq ≠ "" ∧ LoginRequest.GetPassword lreq ≠ "" ∧
        LoginRequest.GetAppId lreq ≠ 0) →
      ∀ srv : serverAPI τ,
        (srv.Login t lreq).2 = (srv.auth.Login t (LoginRequest.GetEmail lreq)
          (LoginRequest.GetPassword lreq) (LoginRequest.GetAppId lreq)).2 ∧
        ((srv.auth.Login t (LoginRequest.GetEmail lreq) (LoginRequest.GetPassword lreq)
            (LoginRequest.GetAppId lreq)).1.2 = none →
          (srv.Login t lreq).1 = .ok ⟨(srv.auth.Login t (LoginRequest.GetEmail lreq)
            (LoginRequest.GetPassword lreq) (LoginRequest.GetAppId lreq)).1.1⟩) ∧
        ((srv.auth.Login t (LoginRequest.GetEmail lreq) (LoginRequest.GetPassword lreq)
            (LoginRequest.GetAppId lreq)).1.2 ≠ none →
          ∃ st, (srv.Login t lreq).1 = .error st)) ∧
    ((RegisterRequest.GetEmail rreq = "" ∨ RegisterRequest.GetPassword rreq = "") →
      ∃ m, ∀ srv : serverAPI τ,
        srv.Register t rreq = (.error (status.Error .InvalidArgument m), t)) ∧
    ((RegisterRequest.GetEmail rreq ≠ "" ∧ RegisterRequest.GetPassword rreq ≠ "") →
      ∀ srv : serverAPI τ,
        (srv.Register t rreq).2 = (srv.auth.RegisterNewUser t (RegisterRequest.GetEmail rreq)
          (RegisterRequest.GetPassword rreq)).2 ∧
        ((srv.auth.RegisterNewUser t (RegisterRequest.GetEmail rreq)
            (RegisterRequest.GetPassword rreq)).1.2 = none →
          (srv.Register t rreq).1 = .ok ⟨(srv.auth.RegisterNewUser t
            (RegisterRequest.GetEmail rreq) (RegisterRequest.GetPassword rreq)).1.1⟩) ∧
        ((srv.auth.RegisterNewUser t (RegisterRequest.GetEmail rreq)
            (RegisterRequest.GetPassword rreq)).1.2 ≠ none →
          ∃ st, (srv.Register t rreq).1 = .error st)) ∧
    (IsAdminRequest.GetUserId areq = 0 →
      ∃ m, ∀ srv : serverAPI τ,
        srv.IsAdmin t areq = (.error (status.Error .InvalidArgument m), t)) ∧
    (IsAdminRequest.GetUserId areq ≠ 0 →
      ∀ srv : serverAPI τ,
        (srv.IsAdmin t areq).2 = (srv.auth.IsAdmin t (IsAdminRequest.GetUserId areq)).2 ∧
        ((srv.auth.IsAdmin t (IsAdminRequest.GetUserId areq)).1.2 = none →
          (srv.IsAdmin t areq).1 =
            .ok ⟨(srv.auth.IsAdmin t (IsAdminRequest.GetUserId areq)).1.1⟩) ∧
        ((srv.auth.IsAdmin t (IsAdminRequest.GetUserId areq)).1.2 ≠ none →
          ∃ st, (srv.IsAdmin t areq).1 = .error st)) := by
  refine ⟨?_, ?_, ?_, ?_, ?_, ?_⟩
  · intro hbad
    cases hv : validateLogin lreq with
    | none =>
      have h := (validateLogin_eq_none lreq).1 hv
      rcases hbad with h1 | h1 | h1
      · exact absurd h1 h.1
      · exact absurd h1 h.2.1
      · exact absurd h1 h.2.2
    | some st =>
      refine ⟨st.msg, fun srv => ?_⟩
      rw [login_handler_invalid srv t lreq st hv]
      have hc := validateLogin_code lreq st hv
      cases st
      simp_all [status.Error]
  · intro hgood srv
    have hv := (validateLogin_eq_none lreq).2 hgood
    cases he : (srv.auth.Login t (LoginRequest.GetEmail lreq) (LoginRequest.GetPassword lreq)
        (LoginRequest.GetAppId lreq)).1.2 with
    | none => simp [login_handler_ok srv t lreq hv he]
    | some e => simp [login_handler_error srv t lreq e hv he]
  · intro hbad
    cases hv : validateRegister rreq with
    | none =>
      have h := (validateRegister_eq_none rreq).1 hv
      rcases hbad with h1 | h1
      · exact absurd h1 h.1
      · exact absurd h1 h.2
    | some st =>
      refine ⟨st.msg, fun srv => ?_⟩
      rw [register_handler_invalid srv t rreq st hv]
      have hc := validateRegister_code rreq st hv
      cases st
      simp_all [status.Error]
  · intro hgood srv
    have hv := (validateRegister_eq_none rreq).2 hgood
    cases he : (srv.auth.RegisterNewUser t (RegisterRequest.GetEmail rreq)
        (RegisterRequest.GetPassword rreq)).1.2 with
    | none => simp [register_handler_ok srv t rreq hv he]
    | some e => simp [register_handler_error srv t rreq e hv he]
  · intro hbad
    cases hv : validateIsAdmin areq with
    | none => exact absurd hbad ((validateIsAdmin_eq_none areq).1 hv)
    | some st =>
      refine ⟨st.msg, fun srv => ?_⟩
      rw [isAdmin_handler_invalid srv t areq st hv]
      have hc := validateIsAdmin_code areq st hv
      cases st
      simp_all [status.Error]
  · intro hgood srv
    have hv := (validateIsAdmin_eq_none areq).2 hgood
    cases he : (srv.auth.IsAdmin t (IsAdminRequest.GetUserId areq)).1.2 with
    | none => simp [isAdmin_handler_ok srv t areq hv he]
    | some e => simp [isAdmin_handler_error srv t areq e hv he]

/-- Witness of C7 with a core that counts its calls: a Login request without password
leaves the counter at 0, a complete one moves it to 1 and returns the core's token. -/
theorem handlers_validate_before_core_witness :
    (∃ m, ∀ srv : serverAPI Nat,
        srv.Login 0 (some ⟨"a@x", "", 5⟩) = (.error (status.Error .InvalidArgument m), 0)) ∧
    ((⟨Example.countingCore⟩ : serverAPI Nat).Login 0 (some ⟨"a@x", "pw", 5⟩)).2 = 1 ∧
    ((⟨Example.countingCore⟩ : serverAPI Nat).Login 0 (some ⟨"a@x", "pw", 5⟩)).1 =
      .ok ⟨"tok"⟩ :=
  ⟨(handlers_validate_before_core (0 : Nat) (some ⟨"a@x", "", 5⟩) none none).1
      (Or.inr (Or.inl rfl)),
    ((handlers_validate_before_core (0 : Nat) (some ⟨"a@x", "pw", 5⟩) none none).2.1
      (by decide) ⟨Example.countingCore⟩).1,
    ((handlers_validate_before_core (0 : Nat) (some ⟨"a@x", "pw", 5⟩) none none).2.1
      (by decide) ⟨Example.countingCore⟩).2.1 rfl⟩

/-- C8. On a shape-valid request, the status a handler answers to an error of the core
is fixed by the domain kind of that error.  In `serverAPI.Login` an error matching
`ErrInvalidCredentials` gives InvalidArgument "invalid email or password", one matching
`ErrInvalidAppID` gives InvalidArgument "invalid app_id", every other error gives Internal
"failed to log in".  In `serverAPI.Register` an error matching `ErrUserAlreadyExists` gives
AlreadyExists "user already exists", every other error gives Internal "failed to register
new user".  Each handler is taken on its own: the mapping of Login asks nothing of
Register and conversely.  The two Internal messages are constants, and no error the Auth
service returns has a text that occurs inside them. -/
theorem handler_status_fixed_by_kind {τ : Type} (srv : serverAPI τ) (t : τ)
    (lreq : Option LoginRequest) (rreq : Option RegisterRequest) :
    (∀ e1 : GoError, validateLogin lreq = none →
      (srv.auth.Login t (LoginRequest.GetEmail lreq) (LoginRequest.GetPassword lreq)
        (LoginRequest.GetAppId lreq)).1.2 = some e1 →
      (errorsIs e1 auth.ErrInvalidCredentials = true →
        (srv.Login t lreq).1 =
          .error (status.Error .InvalidArgument "invalid email or password")) ∧
      (errorsIs e1 auth.ErrInvalidCredentials = false →
        errorsIs e1 auth.ErrInvalidAppID = true →
        (srv.Login t lreq).1 = .error (status.Error .InvalidArgument "invalid app_id")) ∧
      (errorsIs e1 auth.ErrInvalidCredentials = false →
        errorsIs e1 auth.ErrInvalidAppID = false →
        (srv.Login t lreq).1 = .error (status.Error .Internal "failed to log in"))) ∧
    (∀ e2 : GoError, validateRegister rreq = none →
      (srv.auth.RegisterNewUser t (RegisterRequest.GetEmail rreq)
        (RegisterRequest.GetPassword rreq)).1.2 = some e2 →
      (errorsIs e2 auth.ErrUserAlreadyExists = true →
        (srv.Register t rreq).1 =
          .error (status.Error .AlreadyExists "user already exists")) ∧
      (errorsIs e2 auth.ErrUserAlreadyExists = false →
        (srv.Register t rreq).1 =
          .error (status.Error .Internal "failed to register new user"))) ∧
    (∀ (σ : Type) (L : Libs) (a : auth.Auth σ) (now : Int) (rnd : List Nat)
        (w : σ × List LogRecord) (email password : String) (appID : Int) (e : GoError),
      (((coreOf L a now rnd).Login w email password appID).1.2 = some e →
        ¬ (e.Error.data <:+: "failed to log in".data)) ∧
      (((coreOf L a now rnd).RegisterNewUser w email password).1.2 = some e →
        ¬ (e.Error.data <:+: "failed to register new user".data))) := by
  refine ⟨?_, ?_, ?_⟩
  · intro e1 hl he1
    rw [login_handler_error srv t lreq e1 hl he1]
    refine ⟨?_, ?_, ?_⟩
    · intro h; simp [h]
    · intro h h2; simp [h, h2]
    · intro h h2; simp [h, h2]
  · intro e2 hr he2
    rw [register_handler_error srv t rreq e2 hr he2]
    refine ⟨?_, ?_⟩
    · intro h; simp [h]
    · intro h; simp [h]
  · intro σ L a now rnd w email password appID e
    constructor
    · intro h
      obtain ⟨x, rfl⟩ := auth.login_err_is_wrapped L a now w.1 email password appID e h
      exact not_infix_of_colon _ _ (colon_mem_wrap_text _ x) (by decide)
    · intro h
      obtain ⟨x, rfl⟩ := auth.register_err_is_wrapped L a rnd w.1 email password e h
      exact not_infix_of_colon _ _ (colon_mem_wrap_text _ x) (by decide)

/-- Witness of C8 over the Auth service on the in-memory instance.  On the empty user
table, where no registration fails, a login answers InvalidArgument "invalid email or
password"; on the table with one user, a login with an app lookup that breaks answers
Internal "failed to log in" and a registration of a taken email answers AlreadyExists. -/
theorem handler_status_fixed_by_kind_witness :
    ((⟨coreOf Example.libs Example.svc 0 []⟩ : serverAPI (Example.Mem × List LogRecord)).Login
        (⟨[], []⟩, []) (some ⟨"a@x", "pw", 5⟩)).1 =
      .error (status.Error .InvalidArgument "invalid email or password") ∧
    ((⟨coreOf Example.libs (auth.New Example.logger Example.memSaver Example.memProvider
        (Example.failingApps Example.diskFull) 3600) 0 []⟩ :
        serverAPI (Example.Mem × List LogRecord)).Login
        (Example.world, []) (some ⟨"a@x", "pw", 5⟩)).1 =
      .error (status.Error .Internal "failed to log in") ∧
    ((⟨coreOf Example.libs Example.svc 0 []⟩ :
        serverAPI (Example.Mem × List LogRecord)).Register
        (Example.world, []) (some ⟨"a@x", "pw"⟩)).1 =
      .error (status.Error .AlreadyExists "user already exists") :=
  ⟨((handler_status_fixed_by_kind ⟨coreOf Example.libs Example.svc 0 []⟩ (⟨[], []⟩, [])
      (some ⟨"a@x", "pw", 5⟩) none).1
      (.wrap "auth.Login" auth.ErrInvalidCredentials) (by decide) (by decide)).1 (by decide),
    ((handler_status_fixed_by_kind ⟨coreOf Example.libs (auth.New Example.logger
      Example.memSaver Example.memProvider (Example.failingApps Example.diskFull) 3600)
      0 []⟩ (Example.world, []) (some ⟨"a@x", "pw", 5⟩) none).1
      (.wrap "auth.Login" Example.diskFull) (by decide) (by decide)).2.2
      (by decide) (by decide),
    ((handler_status_fixed_by_kind ⟨coreOf Example.libs Example.svc 0 []⟩
      (Example.world, []) none (some ⟨"a@x", "pw"⟩)).2.1
      (.wrap "auth.RegisterNewUser" auth.ErrUserAlreadyExists) (by decide) (by decide)).1
      (by decide)⟩

/-- The handler `serverAPI.IsAdmin` over the Auth service never answers NotFound for a
user id the storage does not know: the service has replaced the storage error by
`ErrInvalidCredentials`, which the handler maps to Internal. -/
theorem isAdmin_handler_unknown_user {σ : Type} (L : Libs) (a : auth.Auth σ) (now : Int)
    (rnd : List Nat) (w : σ × List LogRecord) (userID : Int) (e : GoError)
    (hid : userID ≠ 0)
    (hu : (a.userProvider.IsAdmin w.1 userID).1 = .error e)
    (hnf : errorsIs e storage.ErrUserNotFound = true) :
    ((⟨coreOf L a now rnd⟩ : serverAPI (σ × List LogRecord)).IsAdmin w (some ⟨userID⟩)).1 =
      .error (status.Error .Internal "failed to check admin status") := by
  have hv : validateIsAdmin (some ⟨userID⟩) = none :=
    (validateIsAdmin_eq_none _).2 (by simpa [IsAdminRequest.GetUserId] using hid)
  have he : ((coreOf L a now rnd).IsAdmin w (IsAdminRequest.GetUserId (some ⟨userID⟩))).1.2 =
      some (.wrap "auth.IsAdmin" auth.ErrInvalidCredentials) := by
    simp [coreOf, IsAdminRequest.GetUserId, auth.isAdmin_user_not_found a w.1 userID e hu hnf]
  rw [isAdmin_handler_error ⟨coreOf L a now rnd⟩ w (some ⟨userID⟩) _ hv he]
  have hno : errorsIs (.wrap "auth.IsAdmin" auth.ErrInvalidCredentials)
      storage.ErrUserNotFound = false := by decide
  simp [hno]

/-- C4, the code at a failing input: user id 2 is not in the in-memory storage, whose
admin-flag lookup reports an error matching `storage.ErrUserNotFound`; `Auth.IsAdmin`
returns an error matching `ErrInvalidCredentials` and not `storage.ErrUserNotFound`, and
the handler `serverAPI.IsAdmin` answers Internal "failed to check admin status", not
NotFound. -/
theorem isAdmin_unknown_user_gives_internal :
    (Example.svc.userProvider.IsAdmin Example.world 2).1 =
      .error (.wrap "storage.mem.IsAdmin" storage.ErrUserNotFound) ∧
    errorsIs (.wrap "storage.mem.IsAdmin" storage.ErrUserNotFound) storage.ErrUserNotFound
      = true ∧
    (Example.svc.IsAdmin Example.world 2).err =
      some (.wrap "auth.IsAdmin" auth.ErrInvalidCredentials) ∧
    errorsIs (.wrap "auth.IsAdmin" auth.ErrInvalidCredentials) storage.ErrUserNotFound
      = false ∧
    ((⟨coreOf Example.libs Example.svc 0 []⟩ :
        serverAPI (Example.Mem × List LogRecord)).IsAdmin
        (Example.world, []) (some ⟨2⟩)).1 =
      .error (status.Error .Internal "failed to check admin status") :=
  ⟨rfl, by decide, by decide, by decide, rfl⟩

end authgrpc

end Sso
